import Mathlib

/-!
# Verification development for the bordem BitMEX client

Shallow embedding of the request-signing and endpoint-dispatch layer of the
bordem repository (`bitmex_request.py`, `bordemwrapper.py`), together with the
response-envelope handling and the `get_indicator` dispatch chain. Machine
words are `Nat` with explicit reduction modulo `2^32`; byte strings are
`List Nat` with every element a byte value. Third-party collaborators are
modelled by their documented behaviour: the `requests` library places
`params` in the URL query string for every HTTP method and leaves the body
empty when no `data`/`json` argument is given, and `hmac` + `hashlib.sha256`
compute FIPS-198 HMAC over FIPS-180-4 SHA-256 with a lowercase-hex digest.
-/

/-! ## Bytes and lowercase hex -/

/-- UTF-8 bytes of a string, restricted to the code-point value per character.
This agrees with Python's `str.encode("utf-8")` on the ASCII range, which
covers every string the client ever signs or hexes. -/
def strBytes (s : String) : List Nat :=
  s.toList.map (fun c => c.toNat)

/-- The sixteen lowercase hex digit characters, in value order. -/
def hexChars : List Char :=
  "0123456789abcdef".toList

/-- Hex digit character for a nibble value, reduced mod 16 so the function is
total; values 0–15 index the table directly. -/
def hexDigit (n : Nat) : Char :=
  hexChars.getD (n % 16) '0'

/-- Two lowercase hex characters for one byte, high nibble first. -/
def byteHex (b : Nat) : List Char :=
  [hexDigit (b / 16), hexDigit b]

/-- Lowercase hex string of a byte list, as Python's `hexdigest()` renders a
digest. -/
def bytesToHex (bs : List Nat) : String :=
  String.mk ((bs.map byteHex).flatten)

/-! ## SHA-256 over Nat (FIPS 180-4), wrapping arithmetic mod 2^32 -/

/-- Reduction of a word to 32 bits. -/
def m32 (x : Nat) : Nat := x % 4294967296

/-- Right rotation of a 32-bit word by `n` places. -/
def rotr32 (n x : Nat) : Nat :=
  (x >>> n) ||| m32 (x <<< (32 - n))

/-- Bitwise complement of a 32-bit word. -/
def not32 (x : Nat) : Nat := x ^^^ 4294967295

/-- SHA-256 choice function. -/
def shaCh (x y z : Nat) : Nat := (x &&& y) ^^^ (not32 x &&& z)

/-- SHA-256 majority function. -/
def shaMaj (x y z : Nat) : Nat := (x &&& y) ^^^ (x &&& z) ^^^ (y &&& z)

/-- Big sigma 0. -/
def bsig0 (x : Nat) : Nat := rotr32 2 x ^^^ rotr32 13 x ^^^ rotr32 22 x

/-- Big sigma 1. -/
def bsig1 (x : Nat) : Nat := rotr32 6 x ^^^ rotr32 11 x ^^^ rotr32 25 x

/-- Small sigma 0. -/
def ssig0 (x : Nat) : Nat := rotr32 7 x ^^^ rotr32 18 x ^^^ (x >>> 3)

/-- Small sigma 1. -/
def ssig1 (x : Nat) : Nat := rotr32 17 x ^^^ rotr32 19 x ^^^ (x >>> 10)

/-- The eight SHA-256 initial hash words. -/
def shaInit : List Nat :=
  [1779033703, 3144134277, 1013904242, 2773480762,
   1359893119, 2600822924, 528734635, 1541459225]

/-- The 64 SHA-256 round constants. -/
def shaK : List Nat :=
  [1116352408, 1899447441, 3049323471, 3921009573, 961987163,
   1508970993, 2453635748, 2870763221, 3624381080, 310598401,
   607225278, 1426881987, 1925078388, 2162078206, 2614888103,
   3248222580, 3835390401, 4022224774, 264347078, 604807628,
   770255983, 1249150122, 1555081692, 1996064986, 2554220882,
   2821834349, 2952996808, 3210313671, 3336571891, 3584528711,
   113926993, 338241895, 666307205, 773529912, 1294757372,
   1396182291, 1695183700, 1986661051, 2177026350, 2456956037,
   2730485921, 2820302411, 3259730800, 3345764771, 3516065817,
   3600352804, 4094571909, 275423344, 430227734, 506948616,
   659060556, 883997877, 958139571, 1322822218, 1537002063,
   1747873779, 1955562222, 2024104815, 2227730452, 2361852424,
   2428436474, 2756734187, 3204031479, 3329325298]

/-- Big-endian byte serialization of `x` in `n` bytes. -/
def beBytes (n x : Nat) : List Nat :=
  (List.range n).map (fun i => x >>> (8 * (n - 1 - i)) &&& 255)

/-- SHA-256 message padding: `0x80`, zeros to 56 mod 64, then the 64-bit
big-endian bit length. -/
def sha256Pad (msg : List Nat) : List Nat :=
  let L := msg.length
  let zeros := (120 - (L + 1) % 64) % 64
  msg ++ [0x80] ++ List.replicate zeros 0 ++ beBytes 8 ((L * 8) % 18446744073709551616)

/-- Split a byte list into blocks of 64, fuel-driven so recursion is
structural. -/
def chunksGo : Nat → List Nat → List (List Nat)
  | 0, _ => []
  | _, [] => []
  | fuel + 1, l => l.take 64 :: chunksGo fuel (l.drop 64)

/-- Blocks of 64 bytes of a (padded) message. -/
def chunks64 (l : List Nat) : List (List Nat) :=
  chunksGo l.length l

/-- The sixteen initial 32-bit schedule words of one 64-byte block,
big-endian. -/
def blockWords (block : List Nat) : List Nat :=
  (List.range 16).map (fun i =>
    block.getD (4 * i) 0 <<< 24 ||| block.getD (4 * i + 1) 0 <<< 16 |||
      block.getD (4 * i + 2) 0 <<< 8 ||| block.getD (4 * i + 3) 0)

/-- One schedule-extension step: append word `w[t]` computed from the last
sixteen entries. -/
def scheduleStep (w : List Nat) : List Nat :=
  w ++ [m32 (ssig1 (w.getD (w.length - 2) 0) + w.getD (w.length - 7) 0 +
        ssig0 (w.getD (w.length - 15) 0) + w.getD (w.length - 16) 0)]

/-- The full 64-word message schedule of a block. -/
def schedule (block : List Nat) : List Nat :=
  (List.range 48).foldl (fun w _ => scheduleStep w) (blockWords block)

/-- One compression round on the eight working words, consuming one
(schedule word, round constant) pair. -/
def roundStep (st : List Nat) (wk : Nat × Nat) : List Nat :=
  match st with
  | [a, b, c, d, e, f, g, h] =>
      let t1 := m32 (h + bsig1 e + shaCh e f g + wk.2 + wk.1)
      let t2 := m32 (bsig0 a + shaMaj a b c)
      [m32 (t1 + t2), a, b, c, m32 (d + t1), e, f, g]
  | other => other

/-- Compress one 64-byte block into the running eight-word state. -/
def compress (st : List Nat) (block : List Nat) : List Nat :=
  let final := ((schedule block).zip shaK).foldl roundStep st
  (st.zip final).map (fun p => m32 (p.1 + p.2))

/-- SHA-256 digest (32 bytes) of a byte list. -/
def sha256 (msg : List Nat) : List Nat :=
  let st := (chunks64 (sha256Pad msg)).foldl compress shaInit
  (st.map (beBytes 4)).flatten

/-! ## HMAC-SHA256 (FIPS 198-1), as `hmac.new(key, msg, sha256)` computes it -/

/-- Key normalized to the 64-byte SHA-256 block size: long keys are hashed,
short keys zero-padded. -/
def hmacKeyBlock (key : List Nat) : List Nat :=
  let k0 := if 64 < key.length then sha256 key else key
  k0 ++ List.replicate (64 - k0.length) 0

/-- HMAC-SHA256 digest bytes. -/
def hmacSha256 (key msg : List Nat) : List Nat :=
  let kb := hmacKeyBlock key
  let ipad := kb.map (fun b => b ^^^ 0x36)
  let opad := kb.map (fun b => b ^^^ 0x5c)
  sha256 (opad ++ sha256 (ipad ++ msg))

/-- Lowercase hex HMAC-SHA256 of a string message under a string key, the
value of `hmac.new(key=secret.encode(), msg=message.encode(),
digestmod=sha256).hexdigest()`. -/
def hmacSha256Hex (secret message : String) : String :=
  bytesToHex (hmacSha256 (strBytes secret) (strBytes message))

/-! ## Transport model: the requests library's prepared request

`BitMEX._request` builds `Request(method=verb, url=BASE_URL + endpoint,
params=params)` and prepares it on a cached session carrying an `Accept`
header. Per the requests library's documented semantics, `params` are
URL-encoded into the query string for every HTTP method, and the entity body
comes only from a `data`/`files`/`json` argument — none is given here, so the
prepared body is always absent. Percent-encoding of parameter values is left
out of the model; parameters are kept as literal key/value strings. -/

structure PreparedRequest where
  method : String
  path : String
  query : String
  body : Option String
  headers : List (String × String)
deriving Repr, DecidableEq

/-- URL path shared by both base URLs: `urlparse` on
`https://www.bitmex.com/api/v1<endpoint>` (or the testnet host) yields the
path `/api/v1<endpoint>`; the host does not enter the signed material. -/
def BASE_PATH : String := "/api/v1"

/-- Headers the cached session attaches to every request
(`session.headers.update(Accept: application/json)`). -/
def sessionHeaders : List (String × String) := [("Accept", "application/json")]

/-- Query-string encoding of keyword parameters, `k=v` joined by `&`. -/
def encodeParams (params : List (String × String)) : String :=
  String.intercalate "&" (params.map (fun p => p.1 ++ "=" ++ p.2))

/-- The prepared request `session.prepare_request(Request(method=verb,
url=BASE_URL + endpoint, params=params))`: params in the query string for
every verb, body absent. -/
def prepareRequest (verb endpoint : String) (params : List (String × String)) :
    PreparedRequest :=
  { method := verb
    path := BASE_PATH ++ endpoint
    query := encodeParams params
    body := none
    headers := sessionHeaders }

/-! ## Signer (`BitMEX._set_auth_headers`) -/

/-- The path component signed by the code:
`"?".join([path, parsed_url.query]) if parsed_url.query else path`. -/
def canonicalPathCode (path query : String) : String :=
  if query = "" then path else String.intercalate "?" [path, query]

/-- The signed message exactly as `_set_auth_headers` concatenates it:
`verb + path + str(expires) + data` with `expires = now + 5` and
`data = prepped.body or ""`. -/
def signingMessage (verb path query : String) (body : Option String) (now : Nat) :
    String :=
  verb ++ canonicalPathCode path query ++ Nat.repr (now + 5) ++ body.getD ""

/-- The hex signature `_set_auth_headers` computes for a prepared request. -/
def signatureOf (apiSecret : String) (prepped : PreparedRequest) (now : Nat) : String :=
  hmacSha256Hex apiSecret
    (signingMessage prepped.method prepped.path prepped.query prepped.body now)

/-- `BitMEX._set_auth_headers`: adds the `api-key`, `api-expires` and
`api-signature` headers to a prepared request, with
`expires = int(time() + 5)` modelled as `now + 5` over integer seconds. -/
def set_auth_headers (apiKey apiSecret : String) (now : Nat)
    (prepped : PreparedRequest) : PreparedRequest :=
  let expires := now + 5
  { prepped with headers := prepped.headers ++
      [("api-key", apiKey),
       ("api-expires", Nat.repr expires),
       ("api-signature", signatureOf apiSecret prepped now)] }

/-- Canonical message as the specification words it: verb, then the path with
`"?" + query` appended only when a query string is present, then the decimal
string of `expires_at`, then the raw body (empty string when there is none). -/
def specCanonicalMessage (verb path query : String) (expiresAt : Nat)
    (body : String) : String :=
  verb ++ (if query = "" then path else path ++ "?" ++ query) ++
    Nat.repr expiresAt ++ body

/-! ## Endpoint table and dispatch (`BitMEX._ENDPOINTS`, `__init__`,
`_create_func`, `_request`) -/

/-- The static endpoint table of `BitMEX._ENDPOINTS`, in source order. -/
def ENDPOINTS : List (String × String) :=
  [("trade_bucketed_GET", "/trade/bucketed"),
   ("user_wallet_GET", "/user/wallet"),
   ("position_GET", "/position"),
   ("instrument_GET", "/instrument"),
   ("order_POST", "/order"),
   ("order_bulk_POST", "/order/bulk"),
   ("order_all_DELETE", "/order/all")]

/-- Suffix test over the character lists of two strings. -/
def strEndsWith (s suffix : String) : Bool :=
  List.isSuffixOf suffix.toList s.toList

/-- HTTP verb recovered from an operation name by the
`(GET|POST|PUT|DELETE)$` pattern of `BitMEX.__init__`: the name's trailing
verb token, if any. -/
def verbOf (funcName : String) : Option String :=
  if strEndsWith funcName "GET" then some "GET"
  else if strEndsWith funcName "POST" then some "POST"
  else if strEndsWith funcName "PUT" then some "PUT"
  else if strEndsWith funcName "DELETE" then some "DELETE"
  else none

/-- The (verb, path) pair a generated per-operation callable is bound to:
the table path of the operation name together with its trailing verb.
Defined exactly on the table's operation names. -/
def endpointLookup (funcName : String) : Option (String × String) :=
  match ENDPOINTS.lookup funcName, verbOf funcName with
  | some path, some verb => some (verb, path)
  | _, _ => none

/-- `BitMEX._request` up to transmission: prepare the request and, when an
api key is configured, add the three auth headers. The returned value is the
request handed to `session.send`. -/
def performRequest (apiKey : Option String) (apiSecret : String)
    (endpoint verb : String) (params : List (String × String)) (now : Nat) :
    PreparedRequest :=
  let prepped := prepareRequest verb endpoint params
  match apiKey with
  | some k => set_auth_headers k apiSecret now prepped
  | none => prepped

/-- A generated per-operation callable (`_create_func`): forwards its keyword
parameters to `_request` with the operation's endpoint and verb. `none` when
the operation name is not in the table (no such callable is generated). -/
def endpointCall (funcName : String) (params : List (String × String))
    (apiKey : Option String) (apiSecret : String) (now : Nat) :
    Option PreparedRequest :=
  (endpointLookup funcName).map
    (fun vp => performRequest apiKey apiSecret vp.2 vp.1 params now)

/-- The three auth header names `_set_auth_headers` writes. -/
def isAuthHeaderName (k : String) : Bool :=
  k == "api-key" || k == "api-expires" || k == "api-signature"

/-! ## JSON values and `json.loads`

The decoded-body model covers the JSON fragment this wire contract uses:
null, booleans, integers, strings without escape sequences, arrays and
objects. Floats, escapes and the other extensions Python's `json.loads`
accepts fall outside the modelled fragment, so the parser rejects them. -/

inductive Json where
  | obj (fields : List (String × Json))
  | arr (items : List Json)
  | str (text : String)
  | num (value : Int)
  | bool (flag : Bool)
  | null

/-- JSON whitespace. -/
def isWs (c : Char) : Bool :=
  c == ' ' || c == '\n' || c == '\t' || c == '\r'

/-- Drop leading JSON whitespace. -/
def skipWs (cs : List Char) : List Char :=
  cs.dropWhile isWs

/-- Scan a string body up to its closing quote; escape sequences are outside
the modelled fragment. -/
def parseStringBody : List Char → Option (List Char × List Char)
  | [] => none
  | c :: cs =>
    if c == '\"' then some ([], cs)
    else if c == '\\' then none
    else (parseStringBody cs).map (fun p => (c :: p.1, p.2))

/-- An optionally signed decimal integer token. -/
def parseIntToken (cs : List Char) : Option (Int × List Char) :=
  let signed := match cs with
    | '-' :: r => (true, r)
    | _ => (false, cs)
  let ds := signed.2.takeWhile Char.isDigit
  let rest := signed.2.dropWhile Char.isDigit
  if ds.isEmpty then none
  else
    let n : Nat := ds.foldl (fun a c => a * 10 + (c.toNat - 48)) 0
    some (if signed.1 then -(n : Int) else (n : Int), rest)

mutual

/-- Parse one JSON value; fuel bounds nesting and is in practice the input
length plus one. -/
def parseValue : Nat → List Char → Option (Json × List Char)
  | 0, _ => none
  | fuel + 1, cs =>
    match skipWs cs with
    | 't' :: 'r' :: 'u' :: 'e' :: r => some (.bool true, r)
    | 'f' :: 'a' :: 'l' :: 's' :: 'e' :: r => some (.bool false, r)
    | 'n' :: 'u' :: 'l' :: 'l' :: r => some (.null, r)
    | '\"' :: r => (parseStringBody r).map (fun p => (.str (String.mk p.1), p.2))
    | '[' :: r =>
      (match skipWs r with
       | ']' :: r2 => some (.arr [], r2)
       | r1 => (parseElems fuel r1).map (fun p => (.arr p.1, p.2)))
    | '\x7b' :: r =>
      (match skipWs r with
       | '\x7d' :: r2 => some (.obj [], r2)
       | r1 => (parseFields fuel r1).map (fun p => (.obj p.1, p.2)))
    | rest => (parseIntToken rest).map (fun p => (.num p.1, p.2))

/-- Parse the elements of a nonempty array after its opening bracket. -/
def parseElems : Nat → List Char → Option (List Json × List Char)
  | 0, _ => none
  | fuel + 1, cs =>
    match parseValue fuel cs with
    | none => none
    | some (v, r) =>
      match skipWs r with
      | ',' :: r2 => (parseElems fuel r2).map (fun p => (v :: p.1, p.2))
      | ']' :: r2 => some ([v], r2)
      | _ => none

/-- Parse the members of a nonempty object after its opening brace. -/
def parseFields : Nat → List Char → Option (List (String × Json) × List Char)
  | 0, _ => none
  | fuel + 1, cs =>
    match skipWs cs with
    | '\"' :: r =>
      (match parseStringBody r with
       | none => none
       | some (kcs, r1) =>
         match skipWs r1 with
         | ':' :: r2 =>
           (match parseValue fuel r2 with
            | none => none
            | some (v, r3) =>
              match skipWs r3 with
              | ',' :: r4 =>
                (parseFields fuel r4).map
                  (fun p => ((String.mk kcs, v) :: p.1, p.2))
              | '\x7d' :: r4 => some ([(String.mk kcs, v)], r4)
              | _ => none)
         | _ => none)
    | _ => none

end

/-- `json.loads` over the modelled fragment: one JSON value covering the
whole input up to trailing whitespace. -/
def jsonParse (s : String) : Option Json :=
  match parseValue (s.length + 1) s.toList with
  | some (v, rest) => if (skipWs rest).isEmpty then some v else none
  | none => none

/-! ## Response envelope (`BitMEX._handle_response`) -/

/-- A received HTTP response as `_handle_response` consumes it: the body text
and the response headers. -/
structure ResponseObject where
  text : String
  headers : List (String × String)

/-- The exceptions the handler can catch: a JSON decode failure, a missing
header key, or a conversion failure while wrapping records. -/
inductive PyError where
  | jsonDecodeError
  | keyError (key : String)
  | typeError
deriving Repr, DecidableEq

/-- Result of `_handle_response`: either the envelope records or the caught
error object, returned through the same channel — the caller can tell the
cases apart only by inspecting which variant it got. -/
inductive HandleResult where
  | ok (records : List Json)
  | err (e : PyError)

/-- Whether a handler result is a caught error. -/
def HandleResult.isErr : HandleResult → Bool
  | .err _ => true
  | .ok _ => false

/-- `dict(item)`: succeeds on a JSON object (the only record shape this wire
contract produces); other shapes fail the conversion. -/
def dictOfItem : Json → Option Json
  | .obj fields => some (.obj fields)
  | _ => none

/-- `[dict(item) for item in response]` over an array body. -/
def dictAll : List Json → Option (List Json)
  | [] => some []
  | item :: rest =>
    match dictOfItem item with
    | none => none
    | some d => (dictAll rest).map (fun ds => d :: ds)

/-- The appended rate-limit record, values verbatim from the three response
headers. -/
def ratelimitRecord (limit remaining reset : String) : Json :=
  .obj [("ratelimit", .obj
    [("limit", .str limit),
     ("remaining", .str remaining),
     ("reset", .str reset)])]

/-- `BitMEX._handle_response`: decode the body, read the three rate-limit
headers, wrap each record, append the rate-limit record; any failure along
the way is caught and returned as the value of the call. -/
def handle_response (r : ResponseObject) : HandleResult :=
  match jsonParse r.text with
  | none => .err .jsonDecodeError
  | some response =>
    match r.headers.lookup "x-ratelimit-limit" with
    | none => .err (.keyError "x-ratelimit-limit")
    | some limit =>
      match r.headers.lookup "x-ratelimit-remaining" with
      | none => .err (.keyError "x-ratelimit-remaining")
      | some remaining =>
        match r.headers.lookup "x-ratelimit-reset" with
        | none => .err (.keyError "x-ratelimit-reset")
        | some reset =>
          match response with
          | .arr items =>
            (match dictAll items with
             | none => .err .typeError
             | some dicts =>
               .ok (dicts ++ [ratelimitRecord limit remaining reset]))
          | _ => .err .typeError

/-! ## Balance facade (`BitMEXFunctions.get_balance`) -/

/-- `BitMEXFunctions.get_balance`: subscripts the wallet response with
`"amount"` and divides by `100000000` (Python true division, modelled in ℚ).
The wallet response itself comes back through the external cryptowrapper
client, which hands the facade the wallet JSON object. -/
def get_balance (walletResponse : Json) : Option ℚ :=
  match walletResponse with
  | .obj fields =>
    (match fields.lookup "amount" with
     | some (.num n) => some ((n : ℚ) / 100000000)
     | _ => none)
  | _ => none

/-! ## Indicator dispatch (`BitMEXData.get_indicator`)

After the parameter checks and the data request, `get_indicator` runs a
chain of top-level `if indicator == '<name>':` tests. Every branch body ends
with a `return` or a `raise` except the `'APO'` branch, which computes its
value and then falls through to the tests below it. The final `else` is
attached solely to the last test (`'SUM'`), so control that falls past every
test reaches it and raises `ValueError('<name> not recognized')`. Each entry
below pairs a tested name with whether its body leaves the function. -/

def dispatchBranches : List (String × Bool) :=
  [("BBANDS", true), ("DEMA", true), ("EMA", true), ("HT_TRENDLINE", true),
   ("KAMA", true), ("MA", true), ("MAMA", true), ("MAVP", true),
   ("MIDPOINT", true), ("MIDPRICE", true), ("SAR", true), ("SAREXT", true),
   ("SMA", true), ("T3", true), ("TEMA", true), ("TRIMA", true),
   ("WMA", true), ("ADX", true), ("ADXR", true), ("APO", false),
   ("AROON", true), ("AROONOSC", true), ("BOP", true), ("CCI", true),
   ("CMO", true), ("DX", true), ("MACD", true), ("MACDEXT", true),
   ("MACDFIX", true), ("MFI", true), ("MINUS_DI", true), ("MINUS_DM", true),
   ("MOM", true), ("PLUS_DI", true), ("PLUS_DM", true), ("PPO", true),
   ("ROC", true), ("ROCP", true), ("ROCR100", true), ("RSI", true),
   ("STOCH", true), ("STOCHF", true), ("STOCHRSI", true), ("TRIX", true),
   ("ULTOSC", true), ("WILLR", true), ("AD", true), ("ADOSC", true),
   ("OBV", true), ("ATR", true), ("NATR", true), ("TRANGE", true),
   ("AVGPRICE", true), ("MEDPRICE", true), ("TYPRICE", true), ("WCLPRICE", true),
   ("HT_DCPERIOD", true), ("HT_DCPHASE", true), ("HT_PHASOR", true), ("HT_SINE", true),
   ("HT_TRENDMODE", true), ("CDL2CROWS", true), ("CDL3BLACKCROWS", true), ("CDL3INSIDE", true),
   ("CDL3LINESTRIKE", true), ("CDL3OUTSIDE", true), ("CDL3STARSINSOUTH", true), ("CDL3WHITESOLDIERS", true),
   ("CDLABANDONEDBABY", true), ("CDLADVANCEBLOCK", true), ("CDLBELTHOLD", true), ("CDLBREAKAWAY", true),
   ("CDLCLOSINGMARUBOZU", true), ("CDLCONCEALBABYSWALL", true), ("CDLCOUNTERATTACK", true), ("CDLDARKCLOUDCOVER", true),
   ("CDLDOJI", true), ("CDLDOJISTAR", true), ("CDLDRAGONFLYDOJI", true), ("CDLENGULFING", true),
   ("CDLEVENINGDOJISTAR", true), ("CDLEVENINGSTAR", true), ("CDLGAPSIDESIDEWHITE", true), ("CDLGRAVESTONEDOJI", true),
   ("CDLHAMMER", true), ("CDLHANGINGMAN", true), ("CDLHARAMI", true), ("CLDHARAMICROSS", true),
   ("CDLHIGHWAVE", true), ("CDLHIKKAKE", true), ("CDLHIKKAKEMOD", true), ("CDLHOMINGPIDGEON", true),
   ("CDLIDENTICAL3CROWS", true), ("CDLINNECK", true), ("CDLINVERTEDHAMMER", true), ("CDLKICKING", true),
   ("CDLKICKINGBYLENGTH", true), ("CDLLADDERBOTTOM", true), ("CDLLONGLEGGEDDOJI", true), ("CDLLONGLINE", true),
   ("CDLMARUBOZU", true), ("CDLMATCHINGLOW", true), ("CDLMATHOLD", true), ("CDLMORNINGSTARDOJI", true),
   ("CDLMORNINGSTAR", true), ("CDLONNECK", true), ("CDLPIERCING", true), ("CDLRICKSHAWMAN", true),
   ("CDLRISEFALL3METHODS", true), ("CDLSEPARATINGLINES", true), ("CDLSHOOTINGSTAR", true), ("CDLSHORTLINE", true),
   ("CDLSPINNINGTOP", true), ("CDLSTALLEDPATTERN", true), ("CDLSTICKSANDWICH", true), ("CDLTARUKI", true),
   ("CDLTASUKIGAP", true), ("CDLTHRUSTING", true), ("CDLTRISTAR", true), ("CDLUNIQUE3RIVER", true),
   ("CDLUPSIDEGAP2CROWS", true), ("CDLXSIDEGAP3METHODS", true), ("BETA", true), ("CORREL", true),
   ("LINEARREG", true), ("LINEARREG_ANGLE", true), ("LINEARREG_INTERCEPT", true), ("LINEARREG_SLOPE", true),
   ("STDDEV", true), ("TSF", true), ("VAR", true), ("ACOS", true),
   ("ASIN", true), ("ATAN", true), ("CEIL", true), ("COS", true),
   ("COSH", true), ("EXP", true), ("FLOOR", true), ("LN", true),
   ("SIN", true), ("SINH", true), ("SQRT", true), ("TAN", true),
   ("TANH", true), ("ADD", true), ("DIV", true), ("MAX", true),
   ("MAXINDEX", true), ("MIN", true), ("MININDEX", true), ("MINMAX", true),
   ("MINMAXINDEX", true), ("MULT", true), ("SUB", true), ("SUM", true)]

/-- Where a `get_indicator` call ends once it reaches the dispatch chain:
control leaves inside some branch's body (a `return` of the computed value,
or a `raise NotImplementedError`), or the final `else` raises `ValueError`
for the requested name. -/
inductive DispatchOutcome where
  | stopped (branch : String)
  | raisedValueError (ind : String)
deriving Repr, DecidableEq

/-- Walk the dispatch chain: a matching branch whose body leaves the function
ends the call there; a matching branch without a `return` (APO) lets control
continue to the tests after it; falling past the last test reaches its
`else`, which raises `ValueError`. -/
def dispatchGo (ind : String) : List (String × Bool) → DispatchOutcome
  | [] => .raisedValueError ind
  | (name, stops) :: rest =>
    if ind == name then
      (if stops then .stopped name else dispatchGo ind rest)
    else dispatchGo ind rest

/-- The dispatch phase of `BitMEXData.get_indicator` for a requested
indicator name. -/
def get_indicator_dispatch (ind : String) : DispatchOutcome :=
  dispatchGo ind dispatchBranches

/-! ## Helper lemmas -/

/-- `"?".join([a, b])` is `a ++ "?" ++ b`. -/
theorem intercalate_question (a b : String) :
    String.intercalate "?" [a, b] = a ++ "?" ++ b := by
  simp [String.intercalate, String.intercalate.go]

/-- A lookup in an association list succeeds exactly on its keys. -/
theorem lookup_isSome_iff_mem_keys (a : String) (l : List (String × String)) :
    (l.lookup a).isSome ↔ a ∈ l.map Prod.fst := by
  induction l with
  | nil => simp [List.lookup]
  | cons p t ih =>
    cases p with
    | mk k v =>
      by_cases h : a = k
      · subst h; simp [List.lookup]
      · simp [List.lookup, h, ih, beq_eq_false_iff_ne.mpr h]

/-- Every character the hex-digit table can produce is a lowercase hex
digit. -/
theorem hexDigit_mem (n : Nat) : hexDigit n ∈ hexChars := by
  unfold hexDigit
  have h : n % 16 < hexChars.length := by
    have h16 : n % 16 < 16 := Nat.mod_lt _ (by norm_num)
    simpa [hexChars] using h16
  rw [List.getD_eq_getElem _ _ h]
  exact List.getElem_mem h

/-- Every character of a hexdigest is a lowercase hex digit. -/
theorem bytesToHex_chars (bs : List Nat) :
    ∀ c ∈ (bytesToHex bs).toList, c ∈ hexChars := by
  intro c hc
  have hc2 : c ∈ (bs.map byteHex).flatten := hc
  rcases List.mem_flatten.mp hc2 with ⟨l, hl, hcl⟩
  rcases List.mem_map.mp hl with ⟨b, _, rfl⟩
  simp only [byteHex, List.mem_cons, List.not_mem_nil, or_false] at hcl
  rcases hcl with rfl | rfl
  · exact hexDigit_mem _
  · exact hexDigit_mem _

/-- Boolean form of `bytesToHex_chars`. -/
theorem bytesToHex_all_hex (bs : List Nat) :
    (bytesToHex bs).toList.all (fun c => hexChars.contains c) = true := by
  rw [List.all_eq_true]
  intro c hc
  exact List.elem_eq_true_of_mem (bytesToHex_chars bs c hc)

/-! ## Claims about the signer -/

/-- Claim C1: for every HTTP verb, URL path, query string, body and secret,
the signing operation builds the canonical message as the concatenation of
the verb, the path (with "?" and the query appended only when a query string
is present, otherwise the path alone), the decimal string of
`expires_at = now + 5`, and the raw body (empty string when there is no
body), and the signature it computes is the lowercase hex encoding of
HMAC-SHA256 over that message keyed by the secret. -/
theorem c1_canonical_message_and_signature
    (verb path query secret : String) (body : Option String)
    (headers : List (String × String)) (now : Nat) :
    signingMessage verb path query body now =
      specCanonicalMessage verb path query (now + 5) (body.getD "") ∧
    signatureOf secret ⟨verb, path, query, body, headers⟩ now =
      bytesToHex (hmacSha256 (strBytes secret)
        (strBytes (specCanonicalMessage verb path query (now + 5) (body.getD "")))) := by
  have hmsg : signingMessage verb path query body now =
      specCanonicalMessage verb path query (now + 5) (body.getD "") := by
    unfold signingMessage specCanonicalMessage canonicalPathCode
    by_cases hq : query = ""
    · simp [hq]
    · simp [hq, intercalate_question]
  refine ⟨hmsg, ?_⟩
  unfold signatureOf hmacSha256Hex
  rw [show (⟨verb, path, query, body, headers⟩ : PreparedRequest).method = verb from rfl]
  rw [show (⟨verb, path, query, body, headers⟩ : PreparedRequest).path = path from rfl]
  rw [show (⟨verb, path, query, body, headers⟩ : PreparedRequest).query = query from rfl]
  rw [show (⟨verb, path, query, body, headers⟩ : PreparedRequest).body = body from rfl]
  rw [hmsg]

/-- Claim C2: signing is a deterministic pure function — two runs on
identical (verb, path, query, body, secret, now) inputs produce the
identical signature. -/
theorem c2_signing_deterministic
    (verb1 path1 query1 : String) (body1 : Option String) (secret1 : String)
    (now1 : Nat)
    (verb2 path2 query2 : String) (body2 : Option String) (secret2 : String)
    (now2 : Nat)
    (hv : verb1 = verb2) (hp : path1 = path2) (hq : query1 = query2)
    (hb : body1 = body2) (hs : secret1 = secret2) (hn : now1 = now2) :
    hmacSha256Hex secret1 (signingMessage verb1 path1 query1 body1 now1) =
      hmacSha256Hex secret2 (signingMessage verb2 path2 query2 body2 now2) := by
  subst hv; subst hp; subst hq; subst hb; subst hs; subst hn; rfl

/-- Witness for C2 at one concrete signing input. -/
theorem c2_signing_deterministic_witness :
    hmacSha256Hex "chNOOSA" (signingMessage "GET" "/api/v1/instrument" "" none 1518064236) =
      hmacSha256Hex "chNOOSA" (signingMessage "GET" "/api/v1/instrument" "" none 1518064236) :=
  c2_signing_deterministic "GET" "/api/v1/instrument" "" none "chNOOSA" 1518064236
    "GET" "/api/v1/instrument" "" none "chNOOSA" 1518064236 rfl rfl rfl rfl rfl rfl

/-- Claim C3: every authenticated request built at time `now` carries the
expiry `now + 5` exactly, transmitted as the decimal integer string
`Nat.repr (now + 5)` in the `api-expires` header. -/
theorem c3_expires_now_plus_five (k apiSecret endpoint verb : String)
    (params : List (String × String)) (now : Nat) :
    (performRequest (some k) apiSecret endpoint verb params now).headers.lookup
        "api-expires" = some (Nat.repr (now + 5)) := by
  rfl

/-! ## Claim about the endpoint table -/

/-- Claim C4: the endpoint lookup is total over exactly the seven documented
operation names, and returns for each the exact documented (verb, path)
pair; the paths carry the leading slash of their table entries, to be joined
to the base URL. -/
theorem c4_endpoint_table :
    endpointLookup "trade_bucketed_GET" = some ("GET", "/trade/bucketed") ∧
    endpointLookup "user_wallet_GET" = some ("GET", "/user/wallet") ∧
    endpointLookup "position_GET" = some ("GET", "/position") ∧
    endpointLookup "instrument_GET" = some ("GET", "/instrument") ∧
    endpointLookup "order_POST" = some ("POST", "/order") ∧
    endpointLookup "order_bulk_POST" = some ("POST", "/order/bulk") ∧
    endpointLookup "order_all_DELETE" = some ("DELETE", "/order/all") ∧
    ∀ name, (endpointLookup name).isSome ↔
      name ∈ ["trade_bucketed_GET", "user_wallet_GET", "position_GET",
              "instrument_GET", "order_POST", "order_bulk_POST",
              "order_all_DELETE"] := by
  refine ⟨rfl, rfl, rfl, rfl, rfl, rfl, rfl, ?_⟩
  intro name
  constructor
  · intro h
    have hl : (ENDPOINTS.lookup name).isSome := by
      unfold endpointLookup at h
      cases he : ENDPOINTS.lookup name with
      | none => rw [he] at h; cases hv : verbOf name <;> rw [hv] at h <;> simp at h
      | some path => rfl
    have := (lookup_isSome_iff_mem_keys name ENDPOINTS).mp hl
    simpa [ENDPOINTS] using this
  · intro h
    simp only [List.mem_cons, List.not_mem_nil, or_false] at h
    rcases h with rfl | rfl | rfl | rfl | rfl | rfl | rfl
    · rfl
    · rfl
    · rfl
    · rfl
    · rfl
    · rfl
    · rfl

/-! ## Claims about parameter placement and auth headers -/

/-- Claim C5 counterexample: the generated `order_POST` callable, given one
named parameter, produces a request whose body is empty and whose query
string carries the parameter — the parameter is not placed in the request
body even though the verb is POST. -/
theorem c5_counterexample :
    (endpointCall "order_POST" [("symbol", "XBTUSD")] none "" 0).map
        PreparedRequest.body = some none ∧
    (endpointCall "order_POST" [("symbol", "XBTUSD")] none "" 0).map
        PreparedRequest.query = some "symbol=XBTUSD" := by
  exact ⟨rfl, rfl⟩

/-- Claim C5 as amended: every per-operation callable forwards its named
parameters verbatim into the query string of the outgoing request, for every
verb alike, and the request body stays empty. -/
theorem c5_params_always_in_query (funcName : String)
    (params : List (String × String)) (apiKey : Option String)
    (apiSecret : String) (now : Nat) (req : PreparedRequest)
    (h : endpointCall funcName params apiKey apiSecret now = some req) :
    req.query = encodeParams params ∧ req.body = none := by
  unfold endpointCall at h
  cases he : endpointLookup funcName with
  | none => rw [he] at h; cases h
  | some vp =>
    rw [he] at h
    simp only [Option.map_some'] at h
    have hreq : req = performRequest apiKey apiSecret vp.2 vp.1 params now := by
      exact (Option.some.injEq _ _).mp h |>.symm
    subst hreq
    unfold performRequest set_auth_headers prepareRequest
    cases apiKey with
    | none => exact ⟨rfl, rfl⟩
    | some k => exact ⟨rfl, rfl⟩

/-- Witness for the amended C5 at the concrete `order_POST` call. -/
theorem c5_params_always_in_query_witness :
    ({ method := "POST", path := "/api/v1/order", query := "symbol=XBTUSD",
       body := none, headers := [("Accept", "application/json")] } :
         PreparedRequest).query = encodeParams [("symbol", "XBTUSD")] ∧
    ({ method := "POST", path := "/api/v1/order", query := "symbol=XBTUSD",
       body := none, headers := [("Accept", "application/json")] } :
         PreparedRequest).body = none :=
  c5_params_always_in_query "order_POST" [("symbol", "XBTUSD")] none "" 0 _ rfl

/-- Claim C6: with credentials configured, the transmitted request carries
exactly the three documented auth headers — `api-key` with the key,
`api-expires` with the decimal integer string of `now + 5`, and
`api-signature` with the hex signature, every character of which is a
lowercase hex digit; with credentials absent, the transmitted request is the
prepared request unchanged, carrying no auth header. -/
theorem c6_auth_headers (k apiSecret endpoint verb : String)
    (params : List (String × String)) (now : Nat) :
    ((performRequest (some k) apiSecret endpoint verb params now).headers.filter
        (fun p => isAuthHeaderName p.1)) =
      [("api-key", k),
       ("api-expires", Nat.repr (now + 5)),
       ("api-signature",
         signatureOf apiSecret (prepareRequest verb endpoint params) now)] ∧
    (signatureOf apiSecret (prepareRequest verb endpoint params) now).toList.all
        (fun c => hexChars.contains c) = true ∧
    performRequest none apiSecret endpoint verb params now =
      prepareRequest verb endpoint params ∧
    ((performRequest none apiSecret endpoint verb params now).headers.filter
        (fun p => isAuthHeaderName p.1)) = [] := by
  refine ⟨rfl, ?_, rfl, rfl⟩
  unfold signatureOf hmacSha256Hex
  exact bytesToHex_all_hex _

/-! ## Claims about the response envelope -/

/-- Wrapping an array of JSON objects record by record succeeds and is the
identity. -/
theorem dictAll_objs (fs : List (List (String × Json))) :
    dictAll (fs.map Json.obj) = some (fs.map Json.obj) := by
  induction fs with
  | nil => rfl
  | cons f t ih => simp [dictAll, dictOfItem, ih]

/-- Claim C7: every successful response whose body decodes as a JSON array
of objects and whose headers carry the three rate-limit headers yields the
array of records with exactly one appended ratelimit record taking those
header values verbatim; on the documented mock response the envelope is the
one-element array plus that record, and the balance facade computation
reports 1.5 = 150000000 / 100000000. -/
theorem c7_envelope_and_balance :
    (∀ (text : String) (fieldsList : List (List (String × Json)))
       (hdrs : List (String × String)) (limit remaining reset : String),
       jsonParse text = some (.arr (fieldsList.map Json.obj)) →
       hdrs.lookup "x-ratelimit-limit" = some limit →
       hdrs.lookup "x-ratelimit-remaining" = some remaining →
       hdrs.lookup "x-ratelimit-reset" = some reset →
       handle_response ⟨text, hdrs⟩ =
         .ok (fieldsList.map Json.obj ++
              [ratelimitRecord limit remaining reset])) ∧
    handle_response ⟨"[\x7b\"amount\": 150000000\x7d]",
        [("x-ratelimit-limit", "60"), ("x-ratelimit-remaining", "59"),
         ("x-ratelimit-reset", "1700000000")]⟩ =
      .ok [Json.obj [("amount", Json.num 150000000)],
           ratelimitRecord "60" "59" "1700000000"] ∧
    get_balance (Json.obj [("amount", Json.num 150000000)]) =
      some (1.5 : ℚ) := by
  refine ⟨?_, ?_, ?_⟩
  · intro text fieldsList hdrs limit remaining reset hp h1 h2 h3
    simp [handle_response, hp, h1, h2, h3, dictAll_objs]
  · rfl
  · show some ((150000000 : ℚ) / 100000000) = some (1.5 : ℚ)
    norm_num

/-- Witness for C7 at the documented mock response. -/
theorem c7_envelope_and_balance_witness :
    handle_response ⟨"[\x7b\"amount\": 150000000\x7d]",
        [("x-ratelimit-limit", "60"), ("x-ratelimit-remaining", "59"),
         ("x-ratelimit-reset", "1700000000")]⟩ =
      .ok ([[("amount", Json.num 150000000)]].map Json.obj ++
           [ratelimitRecord "60" "59" "1700000000"]) :=
  c7_envelope_and_balance.1 "[\x7b\"amount\": 150000000\x7d]"
    [[("amount", Json.num 150000000)]]
    [("x-ratelimit-limit", "60"), ("x-ratelimit-remaining", "59"),
     ("x-ratelimit-reset", "1700000000")]
    "60" "59" "1700000000" rfl rfl rfl rfl

/-- Claim C8: a response whose body does not decode as JSON, or whose
expected rate-limit headers are absent, does not make the handler raise —
the failure is caught and returned through the same channel as a success,
so a caller tells the cases apart only by which variant it received. -/
theorem c8_error_returned_as_value (r : ResponseObject)
    (h : jsonParse r.text = none ∨
         r.headers.lookup "x-ratelimit-limit" = none ∨
         r.headers.lookup "x-ratelimit-remaining" = none ∨
         r.headers.lookup "x-ratelimit-reset" = none) :
    (handle_response r).isErr = true := by
  unfold handle_response
  rcases h with h | h | h | h
  · rw [h]; rfl
  · cases hp : jsonParse r.text with
    | none => rfl
    | some response => rw [h]; rfl
  · cases hp : jsonParse r.text with
    | none => rfl
    | some response =>
      cases h1 : r.headers.lookup "x-ratelimit-limit" with
      | none => rfl
      | some limit => rw [h]; rfl
  · cases hp : jsonParse r.text with
    | none => rfl
    | some response =>
      cases h1 : r.headers.lookup "x-ratelimit-limit" with
      | none => rfl
      | some limit =>
        cases h2 : r.headers.lookup "x-ratelimit-remaining" with
        | none => rfl
        | some remaining => rw [h]; rfl

/-- Witness for C8 at a non-JSON body. -/
theorem c8_error_returned_as_value_witness :
    (handle_response ⟨"oops", [("x-ratelimit-limit", "60")]⟩).isErr = true :=
  c8_error_returned_as_value ⟨"oops", [("x-ratelimit-limit", "60")]⟩
    (Or.inl rfl)

/-! ## Claims about the indicator dispatch -/

/-- A name that matches only branches without a return walks off the end of
the dispatch chain, where the final else raises ValueError. -/
theorem dispatchGo_no_return_raises (ind : String) (l : List (String × Bool))
    (h : (l.filter (fun p => ind == p.1)).all (fun p => !p.2) = true) :
    dispatchGo ind l = .raisedValueError ind := by
  induction l with
  | nil => rfl
  | cons p t ih =>
    cases p with
    | mk name stops =>
      by_cases hm : (ind == name) = true
      · have hf : (((name, stops) :: t).filter (fun p => ind == p.1)) =
            (name, stops) :: t.filter (fun p => ind == p.1) := by
          simp [List.filter, hm]
        rw [hf] at h
        simp only [List.all_cons, Bool.and_eq_true] at h
        have hs : stops = false := by
          cases stops
          · rfl
          · exact absurd h.1 (by simp)
        subst hs
        simp [dispatchGo, hm, ih h.2]
      · have hf : (((name, stops) :: t).filter (fun p => ind == p.1)) =
            t.filter (fun p => ind == p.1) := by
          simp [List.filter, hm]
        rw [hf] at h
        simp [dispatchGo, hm, ih h]

/-- Claim C9 counterexample: `CDLHARAMICROSS` — a ta-lib function name that
passes the supported-indicators check, while the chain tests only the
misspelled `CLDHARAMICROSS` — matches no dispatch branch, and the call
raises ValueError at the final else rather than falling through without
raising. -/
theorem c9_counterexample :
    get_indicator_dispatch "CDLHARAMICROSS" =
      .raisedValueError "CDLHARAMICROSS" := by
  rfl

/-- Claim C9 as amended: the final else clause is attached to the last
dispatch test and is reachable — every indicator name that matches no
branch whose body returns or raises reaches it, and the call raises
ValueError for that name instead of falling through without raising. -/
theorem c9_unmatched_indicator_raises (ind : String)
    (h : (dispatchBranches.filter (fun p => ind == p.1)).all
        (fun p => !p.2) = true) :
    get_indicator_dispatch ind = .raisedValueError ind :=
  dispatchGo_no_return_raises ind dispatchBranches h

/-- Witness for the amended C9 at a name matching no branch. -/
theorem c9_unmatched_indicator_raises_witness :
    get_indicator_dispatch "NOTANINDICATOR" =
      .raisedValueError "NOTANINDICATOR" :=
  c9_unmatched_indicator_raises "NOTANINDICATOR" rfl

/-- Claim C10: the `APO` branch is present in the dispatch chain but its
body has no return (the `false` flag below), so the call for `APO` — which
is in ta-lib's function list and passes the supported-indicators check —
computes the APO value, falls through the remaining tests, and ends in the
final else raising ValueError instead of returning the computed value. -/
theorem c10_apo_falls_through_and_raises :
    dispatchBranches.lookup "APO" = some false ∧
    get_indicator_dispatch "APO" = .raisedValueError "APO" :=
  ⟨rfl, rfl⟩
